import Mathlib

/-
Verification of the aah framework per-request engine (engine source file:
ServeHTTP, handleRecovery, setDefaults, writeResponse, defaultContentType,
handleNotFound, redirectTrailingSlash, and the getX/putX pool helpers).

The engine's collaborators (the reply, ahttp, pool and router packages) are
outside the excerpted core; their small observable surfaces are modelled from
the spec and marked as such in the doc comments. Everything else is a direct
shallow embedding of the engine source.
-/

namespace Aah

/-- Modelled from the spec: the ahttp content-type constants referenced by
defaultContentType (the ahttp package is outside the excerpted core); each is a
fixed non-empty MIME string. -/
def ContentTypeHTML : String := "text/html; charset=utf-8"

/-- Modelled from the spec: ahttp JSON content type. -/
def ContentTypeJSON : String := "application/json; charset=utf-8"

/-- Modelled from the spec: ahttp XML content type. -/
def ContentTypeXML : String := "application/xml; charset=utf-8"

/-- Modelled from the spec: ahttp plain-text content type. -/
def ContentTypePlainText : String := "text/plain; charset=utf-8"

/-- Modelled from the spec: ahttp octet-stream content type. -/
def ContentTypeOctetStream : String := "application/octet-stream"

/-- Modelled from the spec: the reply package's body-rendering strategy
(reply.Rdr, an interface whose Render step serializes into a buffer and may
fail). A text renderer (installed by Reply().Text) serializes its string and
never fails; a failing renderer returns its error message. -/
inductive Render where
  | text (s : String)
  | failing (msg : String)
deriving DecidableEq

/-- Executes the rendering strategy: the produced body bytes on success, the
error message on failure. -/
def Render.run : Render → Except String String
  | .text s => .ok s
  | .failing msg => .error msg

/-- Modelled from the spec: the reply package's builder — optional status code
(unset means default 200), accumulated headers, content type (empty string is
the Go zero value, meaning unset), and an optional body-rendering strategy. -/
structure Reply where
  Code : Option Nat
  Hdr : List (String × String)
  ContType : String
  Rdr : Option Render
deriving DecidableEq

/-- Modelled from the spec: reply.NewReply() creates a fresh builder with all
fields at their zero values. -/
def NewReply : Reply := { Code := none, Hdr := [], ContType := "", Rdr := none }

/-- Modelled from the spec: reply.IsStatusSet reports whether a status was
explicitly assigned. -/
def Reply.IsStatusSet (r : Reply) : Bool := r.Code.isSome

/-- Modelled from the spec: Reply().Status(code) assigns the status code,
overwriting any earlier one. -/
def Reply.StatusCode (r : Reply) (code : Nat) : Reply := { r with Code := some code }

/-- Modelled from the spec: Reply().Text(...) installs a plain-text body
renderer for the formatted string. -/
def Reply.Text (r : Reply) (s : String) : Reply :=
  { r with Rdr := some (Render.text s), ContType := ContentTypePlainText }

/-- Modelled from the spec: Reply().NotFound() assigns status 404. -/
def Reply.NotFound (r : Reply) : Reply := r.StatusCode 404

/-- State accumulated on the outbound response writer (c.Res wrapping the
transport http.ResponseWriter): the written status line (at most one; Go
ignores a second WriteHeader), the added headers, the Content-Type header
value (kept separate because the engine only ever touches it via Set), and the
body bytes written so far. -/
structure Wire where
  status : Option Nat
  headers : List (String × String)
  contentType : Option String
  body : String
deriving DecidableEq

/-- A freshly wrapped response writer: nothing written yet. -/
def Wire.empty : Wire := { status := none, headers := [], contentType := none, body := "" }

/-- WriteHeader: writes the status line once; a later call is superfluous and
ignored, matching net/http semantics. -/
def Wire.writeHeader (w : Wire) (code : Nat) : Wire :=
  match w.status with
  | some _ => w
  | none => { w with status := some code }

/-- Write: appends body bytes. -/
def Wire.write (w : Wire) (s : String) : Wire := { w with body := w.body ++ s }

/-- Header().Add: appends one header key/value pair. -/
def Wire.headerAdd (w : Wire) (k v : String) : Wire :=
  { w with headers := w.headers ++ [(k, v)] }

/-- Header().Set on the Content-Type key. -/
def Wire.setContentType (w : Wire) (v : String) : Wire := { w with contentType := some v }

/-- Embeds the header-copy loop of writeResponse: for every accumulated
key/value pair, Header().Add it onto the outbound writer. -/
def copyHeaders (hdr : List (String × String)) (w : Wire) : Wire :=
  hdr.foldl (fun acc kv => acc.headerAdd kv.1 kv.2) w

/-- Embeds the tail of engine.writeResponse after a successful (or absent)
render: copy headers, Set the Content-Type from reply.ContType, write the
explicit status if set else 200, then flush the rendered body. -/
def writeTail (r : Reply) (body : String) (w : Wire) : Wire :=
  let w1 := copyHeaders r.Hdr w
  let w2 := w1.setContentType r.ContType
  let w3 := match r.Code with
    | some code => w2.writeHeader code
    | none => w2.writeHeader 200
  w3.write body

/-- Embeds engine.writeResponse: if a renderer is set and fails, immediately
write status 500 and the body "Render error: " ++ message ++ "\n" and return;
otherwise proceed with headers, content type, status and body flush. -/
def writeResponse (r : Reply) (w : Wire) : Wire :=
  match r.Rdr with
  | some rdr =>
    match rdr.run with
    | .error err => (w.writeHeader 500).write ("Render error: " ++ err ++ "\n")
    | .ok body => writeTail r body w
  | none => writeTail r "" w

/-- Reports whether the reply's render step (if any) fails, the condition that
makes writeResponse take its early render-error exit. -/
def renderFails (r : Reply) : Bool :=
  match r.Rdr with
  | some rdr =>
    match rdr.run with
    | .error _ => true
    | .ok _ => false
  | none => false

/-- Embeds defaultContentType: maps the configured render.default value
(AppConfig().StringDefault with default empty string) to a content type,
octet-stream for anything unrecognized. -/
def defaultContentType (cfgValue : String) : String :=
  match cfgValue with
  | "html" => ContentTypeHTML
  | "json" => ContentTypeJSON
  | "xml" => ContentTypeXML
  | "text" => ContentTypePlainText
  | _ => ContentTypeOctetStream

/-- Modelled from the spec: printing an aruntime stacktrace captured at a panic
into a buffer yields the recovered failure message followed by the captured
goroutine/call-stack state; the stack text itself is runtime state and is a
parameter here. -/
def stacktracePrint (msg trace : String) : String := msg ++ "\n" ++ trace

/-- Embeds engine.handleRecovery: recovered is the value returned by recover()
together with the captured stack state (none when no panic is in flight). On a
panic, outside the prod profile the reply becomes status 500 with the verbose
text body; on prod it becomes status 500 with the generic body; in both cases
handleRecovery itself invokes writeResponse on the wire. Returns the
synthesized reply and the wire after the flush. -/
def handleRecovery (profile : String) (recovered : Option (String × String))
    (c : Reply) (w : Wire) : Reply × Wire :=
  match recovered with
  | none => (c, w)
  | some (msg, trace) =>
    let buf := stacktracePrint msg trace
    if profile ≠ "prod" then
      let r := (c.StatusCode 500).Text ("Internal Server Error: " ++ buf)
      (r, writeResponse r w)
    else
      let r := (c.StatusCode 500).Text "Internal Server Error"
      (r, writeResponse r w)

/-- Embeds redirectTrailingSlash: the redirect status is 301 unless the method
is not GET, in which case 307; the target path drops the final character when
the path is longer than one character and ends in a slash, and otherwise gains
a trailing slash. Returns the status code and target path handed to
http.Redirect. -/
def redirectTrailingSlash (method path : String) : Nat × String :=
  let code := if method ≠ "GET" then 307 else 301
  let newPath :=
    if path.length > 1 ∧ path.back = '/' then path.dropRight 1
    else path ++ "/"
  (code, newPath)

/-- Modelled from the spec: the router collaborator's route as observed by
handleNotFound — whether Controller.setTarget returns something other than
errTargetNotFound for it (the route's controller/action target resolves), and
whether the reflected not-found action on the resolved target is valid with
the expected single-boolean signature. -/
structure Route where
  targetResolves : Bool
  actionCompatible : Bool
deriving DecidableEq

/-- Modelled from the spec: the matched routing domain, carrying an optional
custom not-found route. -/
structure Domain where
  NotFoundRoute : Option Route
deriving DecidableEq

/-- Observable outcome of handleNotFound: the generic 404 reply was emitted,
the custom not-found action was invoked with the static-miss flag, or nothing
was done at all. -/
inductive NotFoundOutcome where
  | generic404
  | customAction (isStatic : Bool)
  | noAction
deriving DecidableEq

/-- Embeds handleNotFound: with no custom not-found route the reply becomes a
404 with plain-text body; with one, setTarget is attempted — when it returns
errTargetNotFound the function falls through and returns with nothing done;
when it resolves, a valid reflected action is called with the isStatic flag,
and an invalid one falls back to the generic 404 reply. Returns the reply
after the call and the observable outcome. -/
def handleNotFound (c : Reply) (domain : Domain) (isStatic : Bool) :
    Reply × NotFoundOutcome :=
  match domain.NotFoundRoute with
  | none => ((c.NotFound).Text "404 Not Found", .generic404)
  | some route =>
    if route.targetResolves then
      if route.actionCompatible then (c, .customAction isStatic)
      else ((c.NotFound).Text "404 Not Found", .generic404)
    else (c, .noAction)

/-- Modelled from the spec: the ahttp request view — the parsed wrapper over
the raw transport request exposing method, path and locale; reset clears the
parsed fields so stale values cannot bleed into the next reuse. -/
structure Request where
  Method : String
  Path : String
  Locale : Option String
deriving DecidableEq

/-- A freshly constructed request view, the rPool factory value. -/
def Request.empty : Request := { Method := "", Path := "", Locale := none }

/-- Modelled from the spec: Request.Reset clears every parsed field back to
its zero value. -/
def Request.Reset (r : Request) : Request :=
  { r with Method := "", Path := "", Locale := none }

/-- Modelled from the spec: the per-request Controller (Context) aggregate —
request view, response writer handle, reply builder, resolved target and
action, and the controller name; the engine source reads and writes these
through ParseRequest, WrapResponseWriter, NewReply and setTarget. -/
structure Controller where
  Req : Option Request
  Res : Option Wire
  reply : Option Reply
  target : Option String
  action : Option String
  controller : String
deriving DecidableEq

/-- A freshly constructed Controller, the cPool factory value. -/
def Controller.empty : Controller :=
  { Req := none, Res := none, reply := none, target := none, action := none,
    controller := "" }

/-- Modelled from the spec: Controller.Reset clears every mutable field back
to its zero value before the object re-enters the pool. -/
def Controller.Reset (c : Controller) : Controller :=
  { c with Req := none, Res := none, reply := none, target := none, action := none, controller := "" }

/-- Models bytes.Buffer: the readable content is observable; the retained
capacity is an internal field that Reset keeps (truncate, capacity retained)
and that is not externally observable. -/
structure Buffer where
  data : String
  cap : Nat
deriving DecidableEq

/-- A freshly constructed bytes.Buffer, the bPool factory value. -/
def Buffer.fresh : Buffer := { data := "", cap := 0 }

/-- Buffer.Reset truncates the content and retains the capacity. -/
def Buffer.Reset (b : Buffer) : Buffer := { b with data := "" }

/-- Modelled from the spec: the pool collaborator's reservoir, with Get
falling back to the factory when empty and Put re-inserting a released
object; order of reuse is unspecified, modelled here as a stack. -/
abbrev Pool (α : Type) := List α

/-- Pool Get: reuse an instance when available, else construct via factory. -/
def Pool.get {α : Type} (factory : α) : Pool α → α × Pool α
  | [] => (factory, [])
  | x :: xs => (x, xs)

/-- Pool Put: re-insert an object into the reservoir. -/
def Pool.put {α : Type} (x : α) (p : Pool α) : Pool α := x :: p

/-- Embeds engine.getController: cPool.Get with the Controller factory. -/
def getController (p : Pool Controller) : Controller × Pool Controller :=
  Pool.get Controller.empty p

/-- Embeds engine.putController: Reset, then cPool.Put. -/
def putController (c : Controller) (p : Pool Controller) : Pool Controller :=
  Pool.put c.Reset p

/-- Embeds engine.getRequest: rPool.Get with the Request factory. -/
def getRequest (p : Pool Request) : Request × Pool Request :=
  Pool.get Request.empty p

/-- Embeds engine.putRequest: Reset, then rPool.Put. -/
def putRequest (r : Request) (p : Pool Request) : Pool Request :=
  Pool.put r.Reset p

/-- Embeds engine.getBuffer: bPool.Get with the bytes.Buffer factory. -/
def getBuffer (p : Pool Buffer) : Buffer × Pool Buffer :=
  Pool.get Buffer.fresh p

/-- Embeds engine.putBuffer: Reset, then bPool.Put. -/
def putBuffer (b : Buffer) (p : Pool Buffer) : Pool Buffer :=
  Pool.put b.Reset p

/-- Embeds engine.setDefaults: when the request view carries no locale, assign
the configured default (i18n.default, "en" by default). -/
def setDefaults (defaultLocale : String) (r : Request) : Request :=
  match r.Locale with
  | none => { r with Locale := some defaultLocale }
  | some _ => r

/-- Outcome of executing the configured middleware chain on the context: it
either completes, leaving some reply state accumulated on the context, or it
panics with a message, a captured stack state, and the reply state it had
accumulated at the moment of the panic. Middleware is user code outside the
excerpted core, so its behavior is a parameter. -/
inductive MwResult where
  | done (r : Reply)
  | panics (msg trace : String) (atPanic : Reply)
deriving DecidableEq

/-- Which of the response categories a flushed response belongs to. -/
inductive RespKind where
  | normal
  | renderError
  | recovered
deriving DecidableEq

/-- Outcome of one ServeHTTP call: either a response was flushed on the wire,
or a panic escaped the entry point back to the transport layer. -/
inductive Outcome where
  | responded (k : RespKind) (w : Wire)
  | escaped (v : String)
deriving DecidableEq

/-- True when the outcome is a flushed response: a response was produced and
its status line was written. -/
def Outcome.flushed : Outcome → Bool
  | .responded _ w => w.status.isSome
  | .escaped _ => false

/-- One request's behavior parameters: whether ahttp.ParseRequest panics (it
is collaborator code outside the excerpted core), the request view it produces
when it succeeds, the middleware chain's behavior, the running deployment
profile, and the configured default locale. -/
structure ReqBehavior where
  parsePanics : Option String
  parsed : Request
  mw : MwResult
  profile : String
  defaultLocale : String
deriving DecidableEq

/-- Result of one ServeHTTP call: the outcome plus the two object pools after
the deferred cleanup ran. -/
structure ServeResult where
  outcome : Outcome
  cPool : Pool Controller
  rPool : Pool Request
deriving DecidableEq

/-- Embeds engine.ServeHTTP following Go defer/recover semantics. The first
deferred function (close and release the pooled objects) is registered before
anything else and runs on every exit path, panicking ones included. The
recovery guard (handleRecovery) is registered only after ahttp.ParseRequest
has run, so a panic raised while parsing unwinds through the cleanup defer and
escapes the entry point; a panic raised in the middleware chain is intercepted
by handleRecovery, which flushes the synthesized 500 reply itself. When the
chain completes, writeResponse flushes the accumulated reply, taking its
render-error exit when the render step fails. -/
def ServeHTTP (b : ReqBehavior) (cp : Pool Controller) (rp : Pool Request) :
    ServeResult :=
  let cAcq := getController cp
  let rAcq := getRequest rp
  let c0 := cAcq.1
  match b.parsePanics with
  | some v =>
    { outcome := .escaped v
      cPool := putController c0 cAcq.2
      rPool := putRequest rAcq.1 rAcq.2 }
  | none =>
    let req := setDefaults b.defaultLocale b.parsed
    match b.mw with
    | .panics msg trace atPanic =>
      let rw := handleRecovery b.profile (some (msg, trace)) atPanic Wire.empty
      { outcome := .responded .recovered rw.2
        cPool := putController { c0 with Req := some req, Res := some rw.2, reply := some rw.1 } cAcq.2
        rPool := putRequest req rAcq.2 }
    | .done reply =>
      let w := writeResponse reply Wire.empty
      let k := if renderFails reply then RespKind.renderError else RespKind.normal
      { outcome := .responded k w
        cPool := putController { c0 with Req := some req, Res := some w, reply := some reply } cAcq.2
        rPool := putRequest req rAcq.2 }

/-- A Controller pool is pristine when every pooled instance is exactly the
freshly constructed one. -/
def goodCtrlPool (p : Pool Controller) : Prop := ∀ c ∈ p, c = Controller.empty

/-- One acquire or release step on the Controller pool, for reasoning about
arbitrary operation sequences. -/
inductive PoolOp where
  | get
  | put (c : Controller)

/-- Runs a sequence of acquire/release operations on the Controller pool,
releases going through putController (reset-on-release). -/
def runPoolOps : List PoolOp → Pool Controller → Pool Controller
  | [], p => p
  | .get :: rest, p => runPoolOps rest (getController p).2
  | .put c :: rest, p => runPoolOps rest (putController c p)

/-
Helper lemmas about the response writer state.
-/

theorem headerAdd_status (w : Wire) (k v : String) : (w.headerAdd k v).status = w.status := rfl

theorem headerAdd_body (w : Wire) (k v : String) : (w.headerAdd k v).body = w.body := rfl

theorem headerAdd_contentType (w : Wire) (k v : String) :
    (w.headerAdd k v).contentType = w.contentType := rfl

theorem copyHeaders_status (l : List (String × String)) (w : Wire) :
    (copyHeaders l w).status = w.status := by
  induction l generalizing w with
  | nil => rfl
  | cons kv t ih => exact ih (w.headerAdd kv.1 kv.2)

theorem copyHeaders_body (l : List (String × String)) (w : Wire) :
    (copyHeaders l w).body = w.body := by
  induction l generalizing w with
  | nil => rfl
  | cons kv t ih => exact ih (w.headerAdd kv.1 kv.2)

theorem copyHeaders_contentType (l : List (String × String)) (w : Wire) :
    (copyHeaders l w).contentType = w.contentType := by
  induction l generalizing w with
  | nil => rfl
  | cons kv t ih => exact ih (w.headerAdd kv.1 kv.2)

theorem writeHeader_status_of_none (w : Wire) (code : Nat) (h : w.status = none) :
    (w.writeHeader code).status = some code := by
  unfold Wire.writeHeader
  rw [h]

theorem writeHeader_body (w : Wire) (code : Nat) : (w.writeHeader code).body = w.body := by
  unfold Wire.writeHeader
  cases w.status <;> rfl

theorem writeHeader_contentType (w : Wire) (code : Nat) :
    (w.writeHeader code).contentType = w.contentType := by
  unfold Wire.writeHeader
  cases w.status <;> rfl

theorem write_status (w : Wire) (s : String) : (w.write s).status = w.status := rfl

theorem write_contentType (w : Wire) (s : String) : (w.write s).contentType = w.contentType := rfl

theorem writeTail_status (r : Reply) (body : String) (w : Wire) (h : w.status = none) :
    (writeTail r body w).status = some (r.Code.getD 200) := by
  have h1 : (copyHeaders r.Hdr w).status = none := (copyHeaders_status r.Hdr w).trans h
  have h2 : ((copyHeaders r.Hdr w).setContentType r.ContType).status = none := h1
  unfold writeTail
  cases hc : r.Code with
  | none => rw [write_status, writeHeader_status_of_none _ _ h2]; rfl
  | some code => rw [write_status, writeHeader_status_of_none _ _ h2]; rfl

theorem writeTail_body (r : Reply) (body : String) (w : Wire) :
    (writeTail r body w).body = w.body ++ body := by
  unfold writeTail
  cases hc : r.Code with
  | none =>
    show (_ : Wire).body ++ body = w.body ++ body
    rw [writeHeader_body]
    show (copyHeaders r.Hdr w).body ++ body = w.body ++ body
    rw [copyHeaders_body]
  | some code =>
    show (_ : Wire).body ++ body = w.body ++ body
    rw [writeHeader_body]
    show (copyHeaders r.Hdr w).body ++ body = w.body ++ body
    rw [copyHeaders_body]

theorem writeTail_contentType (r : Reply) (body : String) (w : Wire) :
    (writeTail r body w).contentType = some r.ContType := by
  unfold writeTail
  cases hc : r.Code with
  | none =>
    rw [write_contentType, writeHeader_contentType]
    rfl
  | some code =>
    rw [write_contentType, writeHeader_contentType]
    rfl

theorem writeResponse_renderOk_status (r : Reply) (h : renderFails r = false) :
    (writeResponse r Wire.empty).status = some (r.Code.getD 200) := by
  cases hr : r.Rdr with
  | none =>
    simp only [writeResponse, hr]
    exact writeTail_status r "" Wire.empty rfl
  | some rdr =>
    cases hrun : rdr.run with
    | ok body =>
      simp only [writeResponse, hr, hrun]
      exact writeTail_status r body Wire.empty rfl
    | error e =>
      simp only [renderFails, hr, hrun] at h
      exact Bool.noConfusion h

theorem writeResponse_renderOk_contentType (r : Reply) (h : renderFails r = false) :
    (writeResponse r Wire.empty).contentType = some r.ContType := by
  cases hr : r.Rdr with
  | none =>
    simp only [writeResponse, hr]
    exact writeTail_contentType r "" Wire.empty
  | some rdr =>
    cases hrun : rdr.run with
    | ok body =>
      simp only [writeResponse, hr, hrun]
      exact writeTail_contentType r body Wire.empty
    | error e =>
      simp only [renderFails, hr, hrun] at h
      exact Bool.noConfusion h

theorem writeResponse_text_body (r : Reply) (s : String) (h : r.Rdr = some (Render.text s)) :
    (writeResponse r Wire.empty).body = s := by
  simp only [writeResponse, h, Render.run]
  rw [writeTail_body]
  exact String.empty_append s

theorem renderFails_text (r : Reply) (s : String) (h : r.Rdr = some (Render.text s)) :
    renderFails r = false := by
  simp only [renderFails, h, Render.run]

theorem writeResponse_status_isSome (r : Reply) :
    ((writeResponse r Wire.empty).status).isSome = true := by
  cases hr : r.Rdr with
  | none =>
    simp only [writeResponse, hr]
    rw [writeTail_status r "" Wire.empty rfl]
    rfl
  | some rdr =>
    cases hrun : rdr.run with
    | ok body =>
      simp only [writeResponse, hr, hrun]
      rw [writeTail_status r body Wire.empty rfl]
      rfl
    | error e =>
      simp only [writeResponse, hr, hrun]
      rfl

theorem handleRecovery_status (profile msg trace : String) (c : Reply) :
    (handleRecovery profile (some (msg, trace)) c Wire.empty).2.status = some 500 := by
  unfold handleRecovery
  by_cases hp : profile = "prod"
  · simp only [hp, ne_eq, not_true_eq_false, if_false]
    rw [writeResponse_renderOk_status _ (renderFails_text _ _ rfl)]
    rfl
  · simp only [ne_eq, hp, not_false_eq_true, if_true]
    rw [writeResponse_renderOk_status _ (renderFails_text _ _ rfl)]
    rfl

/-
Helper lemmas about the object pools.
-/

theorem ctrl_reset_empty (c : Controller) : c.Reset = Controller.empty := rfl

theorem goodCtrlPool_put (c : Controller) (p : Pool Controller) (h : goodCtrlPool p) :
    goodCtrlPool (putController c p) := by
  intro x hx
  rcases List.mem_cons.mp hx with hx | hx
  · rw [hx]
    exact ctrl_reset_empty c
  · exact h x hx

theorem getController_good (p : Pool Controller) (h : goodCtrlPool p) :
    (getController p).1 = Controller.empty ∧ goodCtrlPool (getController p).2 := by
  cases p with
  | nil => exact ⟨rfl, h⟩
  | cons x xs =>
    refine ⟨h x (List.mem_cons_self x xs), ?_⟩
    intro y hy
    exact h y (List.mem_cons_of_mem x hy)

theorem runPoolOps_good (ops : List PoolOp) (p : Pool Controller) (h : goodCtrlPool p) :
    goodCtrlPool (runPoolOps ops p) := by
  induction ops generalizing p with
  | nil => exact h
  | cons op rest ih =>
    cases op with
    | get => exact ih _ (getController_good p h).2
    | put c => exact ih _ (goodCtrlPool_put c p h)

/-
Claim theorems.
-/

/-- C1, counterexample: the claim says every failure raised anywhere during
request handling, request parsing included, is converted into a flushed
response. In the engine the recovery guard is deferred only after
ahttp.ParseRequest has run, so a panic raised while parsing unwinds through
the cleanup defer alone and escapes ServeHTTP unconverted: with a parse-phase
panic "boom", the outcome is the escaped panic and no flushed response. -/
theorem c1_counterexample :
    (ServeHTTP ⟨some "boom", Request.empty, MwResult.done NewReply, "dev", "en"⟩ [] []).outcome
      = Outcome.escaped "boom" ∧
    ((ServeHTTP ⟨some "boom", Request.empty, MwResult.done NewReply, "dev", "en"⟩ [] []).outcome).flushed
      = false :=
  ⟨rfl, rfl⟩

/-- C1 (amended): for every request whose parsing step does not panic, no
failure propagates out of ServeHTTP: whatever the middleware chain does
(completes with any reply, render failure included, or panics with any value)
and whatever the profile, exactly one response is produced — carried by the
single responded outcome — and its status line is written (flushed). A panic
raised during request parsing is not covered: it is registered before the
recovery guard and escapes, as the counterexample shows. -/
theorem c1_engine_contains_failures (b : ReqBehavior) (cp : Pool Controller)
    (rp : Pool Request) (h : b.parsePanics = none) :
    ((ServeHTTP b cp rp).outcome).flushed = true := by
  rcases b with ⟨pp, parsed, mw, profile, dl⟩
  simp only at h
  subst h
  cases mw with
  | panics msg trace atPanic =>
    show ((handleRecovery profile (some (msg, trace)) atPanic Wire.empty).2.status).isSome = true
    rw [handleRecovery_status]
    rfl
  | done reply =>
    show ((writeResponse reply Wire.empty).status).isSome = true
    exact writeResponse_status_isSome reply

/-- C1, witness: a concrete non-panicking-parse request is flushed. -/
theorem c1_witness :
    ((ServeHTTP ⟨none, Request.empty, MwResult.done NewReply, "dev", "en"⟩ [] []).outcome).flushed
      = true :=
  c1_engine_contains_failures ⟨none, Request.empty, MwResult.done NewReply, "dev", "en"⟩ [] [] rfl

/-- C2: for every panic intercepted by handleRecovery, the flushed reply has
status 500; on the prod profile the body is exactly "Internal Server Error";
on any other profile the body is exactly "Internal Server Error: " followed by
the printed stacktrace, which is the failure message plus the captured
diagnostic trace; and in all cases handleRecovery has itself flushed the wire
(the status line of its returned wire is written). -/
theorem c2_recovery_response (profile msg trace : String) (c : Reply) :
    (handleRecovery profile (some (msg, trace)) c Wire.empty).2.status = some 500 ∧
    (profile = "prod" →
      (handleRecovery profile (some (msg, trace)) c Wire.empty).2.body
        = "Internal Server Error") ∧
    (profile ≠ "prod" →
      (handleRecovery profile (some (msg, trace)) c Wire.empty).2.body
        = "Internal Server Error: " ++ stacktracePrint msg trace) := by
  refine ⟨handleRecovery_status profile msg trace c, ?_, ?_⟩
  · intro hp
    simp only [handleRecovery, hp, ne_eq, not_true_eq_false, if_false]
    exact writeResponse_text_body _ _ rfl
  · intro hp
    simp only [handleRecovery, ne_eq, hp, not_false_eq_true, if_true]
    exact writeResponse_text_body _ _ rfl

/-- C2, witness: a concrete panic on the prod profile yields status 500 and
the generic body. -/
theorem c2_witness :
    (handleRecovery "prod" (some ("boom", "stack")) NewReply Wire.empty).2.status = some 500 ∧
    (handleRecovery "prod" (some ("boom", "stack")) NewReply Wire.empty).2.body
      = "Internal Server Error" :=
  ⟨(c2_recovery_response "prod" "boom" "stack" NewReply).1,
   (c2_recovery_response "prod" "boom" "stack" NewReply).2.1 rfl⟩

/-- C3: for every reply whose renderer is set and fails with message m,
writeResponse on a fresh wire produces exactly status 500, no copied headers,
no content-type header, and the body "Render error: " ++ m ++ "\n"; the
reply's own status code and headers are never written. -/
theorem c3_render_error_preempts (r : Reply) (m : String)
    (h : r.Rdr = some (Render.failing m)) :
    writeResponse r Wire.empty
      = ⟨some 500, [], none, "Render error: " ++ m ++ "\n"⟩ := by
  simp only [writeResponse, h, Render.run]
  show ((Wire.empty.writeHeader 500).write ("Render error: " ++ m ++ "\n")) = _
  simp only [Wire.empty, Wire.writeHeader, Wire.write]
  rw [String.empty_append]

/-- C3, witness: a reply carrying an explicit 200 status, a header and a
failing "boom" renderer still produces the bare 500 render-error response. -/
theorem c3_witness :
    writeResponse ⟨some 200, [("X-Test", "v")], "text/html", some (Render.failing "boom")⟩
        Wire.empty
      = ⟨some 500, [], none, "Render error: boom\n"⟩ :=
  c3_render_error_preempts _ "boom" rfl

/-- C4, counterexample: the claim says that when the reply's content type is
unset the writer falls back to the configured framework-wide default. For a
reply with unset content type under configuration render.default = "json" the
written Content-Type header is the empty string, not the default. -/
theorem c4_counterexample :
    (writeResponse ⟨none, [], "", none⟩ Wire.empty).contentType = some "" ∧
    ¬ ((writeResponse ⟨none, [], "", none⟩ Wire.empty).contentType
        = some (defaultContentType "json")) := by
  constructor
  · rfl
  · intro h
    simp only [defaultContentType, ContentTypeJSON] at h
    exact absurd (Option.some.inj h) (by decide)

/-- C4 (amended): for every reply whose render step succeeds or is absent,
writeResponse sets the Content-Type header to the reply's content type
unconditionally — the empty value included when it is unset; defaultContentType
does map html/json/xml/text to their content types with octet-stream for
anything else, but writeResponse never consults it. -/
theorem c4_content_type_direct (r : Reply) (h : renderFails r = false) :
    (writeResponse r Wire.empty).contentType = some r.ContType ∧
    defaultContentType "html" = ContentTypeHTML ∧
    defaultContentType "json" = ContentTypeJSON ∧
    defaultContentType "xml" = ContentTypeXML ∧
    defaultContentType "text" = ContentTypePlainText ∧
    (∀ s : String, s ≠ "html" → s ≠ "json" → s ≠ "xml" → s ≠ "text" →
      defaultContentType s = ContentTypeOctetStream) := by
  refine ⟨writeResponse_renderOk_contentType r h, rfl, rfl, rfl, rfl, ?_⟩
  intro s h1 h2 h3 h4
  unfold defaultContentType
  split
  · exact absurd rfl h1
  · exact absurd rfl h2
  · exact absurd rfl h3
  · exact absurd rfl h4
  · rfl

/-- C4, witness: a rendered reply with content type "text/html" gets exactly
that header value. -/
theorem c4_witness :
    (writeResponse ⟨none, [], "text/html", none⟩ Wire.empty).contentType
      = some "text/html" :=
  (c4_content_type_direct ⟨none, [], "text/html", none⟩ rfl).1

/-- C5: on every exit path of ServeHTTP — escaped parse panic, recovered
middleware panic, and normal completion alike — the final Controller pool is
exactly one putController (reset-and-release) applied to the pool left after
the request's acquire, and the final Request pool is exactly one putRequest
applied to its post-acquire pool: each pooled object is reset and released
exactly once. -/
theorem c5_release_exactly_once (b : ReqBehavior) (cp : Pool Controller)
    (rp : Pool Request) :
    (∃ c : Controller, (ServeHTTP b cp rp).cPool = putController c (getController cp).2) ∧
    (∃ r : Request, (ServeHTTP b cp rp).rPool = putRequest r (getRequest rp).2) := by
  rcases b with ⟨pp, parsed, mw, profile, dl⟩
  cases pp with
  | some v => exact ⟨⟨_, rfl⟩, ⟨_, rfl⟩⟩
  | none =>
    cases mw with
    | done r => exact ⟨⟨_, rfl⟩, ⟨_, rfl⟩⟩
    | panics msg trace atPanic => exact ⟨⟨_, rfl⟩, ⟨_, rfl⟩⟩

/-- C6: release resets pooled objects to the pristine baseline, so
release-then-acquire is indistinguishable from a fresh instance: over any
sequence of acquire/release operations on a pristine Controller pool every
acquire yields the freshly constructed Controller; an acquire right after any
release yields it on any pool; Request reset equals the fresh request view;
and a Buffer acquired after any release is observably (content-wise) the fresh
buffer even though its retained capacity may differ. -/
theorem c6_pool_reset_roundtrip (p : Pool Controller) (h : goodCtrlPool p) :
    (∀ ops : List PoolOp, (getController (runPoolOps ops p)).1 = Controller.empty) ∧
    (∀ c : Controller, ∀ q : Pool Controller,
      (getController (putController c q)).1 = Controller.empty) ∧
    (∀ r : Request, r.Reset = Request.empty) ∧
    (∀ r : Request, ∀ q : Pool Request, (getRequest (putRequest r q)).1 = Request.empty) ∧
    (∀ b : Buffer, b.Reset.data = Buffer.fresh.data) ∧
    (∀ b : Buffer, ∀ q : Pool Buffer, ((getBuffer (putBuffer b q)).1).data = Buffer.fresh.data) := by
  refine ⟨?_, ?_, ?_, ?_, ?_, ?_⟩
  · intro ops
    exact (getController_good _ (runPoolOps_good ops p h)).1
  · intro c q
    exact ctrl_reset_empty c
  · intro r
    rfl
  · intro r q
    rfl
  · intro b
    rfl
  · intro b q
    rfl

/-- C6, witness: running put (of a dirty controller), get, put on the empty
pristine pool still hands out the fresh Controller on the next acquire. -/
theorem c6_witness :
    (getController (runPoolOps
        [PoolOp.put ⟨some Request.empty, some Wire.empty, some NewReply, some "T", some "A", "X"⟩,
         PoolOp.get, PoolOp.put Controller.empty] [])).1 = Controller.empty :=
  (c6_pool_reset_roundtrip [] (by intro c hc; cases hc)).1
    [PoolOp.put ⟨some Request.empty, some Wire.empty, some NewReply, some "T", some "A", "X"⟩,
     PoolOp.get, PoolOp.put Controller.empty]

/-- C7, counterexample: the claim says a path ending in a slash redirects to
the path without it, which for the root path "/" would be the empty path; the
code only strips when the path is longer than one character, so the root path
gets a slash appended instead, redirecting "/" to "//". -/
theorem c7_counterexample :
    redirectTrailingSlash "GET" "/" = (301, "//") ∧
    (redirectTrailingSlash "GET" "/").2 ≠ "" := by
  constructor
  · rfl
  · intro h
    exact absurd h (by decide)

/-- C7 (amended): a path longer than one character that ends in a slash
redirects to the path with its final character dropped; any path that does not
satisfy that condition — paths not ending in a slash and the one-character
root path "/" alike — redirects to the path with one slash appended; the
status is the permanent 301 exactly for GET and the temporary 307 for every
other method. -/
theorem c7_trailing_slash (method path : String) :
    (method = "GET" → (redirectTrailingSlash method path).1 = 301) ∧
    (method ≠ "GET" → (redirectTrailingSlash method path).1 = 307) ∧
    (path.length > 1 → path.back = '/' →
      (redirectTrailingSlash method path).2 = path.dropRight 1) ∧
    (¬ (path.length > 1 ∧ path.back = '/') →
      (redirectTrailingSlash method path).2 = path ++ "/") := by
  refine ⟨?_, ?_, ?_, ?_⟩
  · intro h
    simp [redirectTrailingSlash, h]
  · intro h
    simp [redirectTrailingSlash, h]
  · intro h1 h2
    simp [redirectTrailingSlash, h1, h2]
  · intro hn
    simp only [redirectTrailingSlash, if_neg hn]

/-- C7, witness: a POST to "/foo/" gets the temporary 307 redirect to "/foo",
and a GET to "/foo" gets the permanent 301 redirect to "/foo/". -/
theorem c7_witness :
    (redirectTrailingSlash "POST" "/foo/").1 = 307 ∧
    (redirectTrailingSlash "POST" "/foo/").2 = "/foo" ∧
    (redirectTrailingSlash "GET" "/foo").1 = 301 ∧
    (redirectTrailingSlash "GET" "/foo").2 = "/foo/" := by
  refine ⟨?_, ?_, ?_, ?_⟩
  · exact (c7_trailing_slash "POST" "/foo/").2.1 (by decide)
  · exact ((c7_trailing_slash "POST" "/foo/").2.2.1 (by decide) (by decide)).trans (by decide)
  · exact (c7_trailing_slash "GET" "/foo").1 rfl
  · exact ((c7_trailing_slash "GET" "/foo").2.2.2 (by decide)).trans (by decide)

/-- C8: with no custom not-found route the responder emits the generic reply —
status 404 with the plain-text body renderer for "404 Not Found"; with a
declared route whose target resolves, a signature-compatible action is invoked
with the static-asset-miss flag, and an incompatible one falls back to the
same generic 404 reply. -/
theorem c8_not_found_responder (c : Reply) (d : Domain) (isStatic : Bool) :
    (d.NotFoundRoute = none →
      (handleNotFound c d isStatic).2 = NotFoundOutcome.generic404 ∧
      (handleNotFound c d isStatic).1.Code = some 404 ∧
      (handleNotFound c d isStatic).1.Rdr = some (Render.text "404 Not Found")) ∧
    (∀ route : Route, d.NotFoundRoute = some route → route.targetResolves = true →
      route.actionCompatible = true →
      handleNotFound c d isStatic = (c, NotFoundOutcome.customAction isStatic)) ∧
    (∀ route : Route, d.NotFoundRoute = some route → route.targetResolves = true →
      route.actionCompatible = false →
      (handleNotFound c d isStatic).2 = NotFoundOutcome.generic404 ∧
      (handleNotFound c d isStatic).1.Code = some 404 ∧
      (handleNotFound c d isStatic).1.Rdr = some (Render.text "404 Not Found")) := by
  refine ⟨?_, ?_, ?_⟩
  · intro h
    refine ⟨?_, ?_, ?_⟩ <;>
      simp [handleNotFound, h, Reply.NotFound, Reply.StatusCode, Reply.Text]
  · intro route h hres hcomp
    simp [handleNotFound, h, hres, hcomp]
  · intro route h hres hcomp
    refine ⟨?_, ?_, ?_⟩ <;>
      simp [handleNotFound, h, hres, hcomp, Reply.NotFound, Reply.StatusCode, Reply.Text]

/-- C8, witness: a domain without a custom not-found route produces the
generic 404 reply. -/
theorem c8_witness :
    (handleNotFound NewReply ⟨none⟩ false).2 = NotFoundOutcome.generic404 ∧
    (handleNotFound NewReply ⟨none⟩ false).1.Code = some 404 :=
  ⟨((c8_not_found_responder NewReply ⟨none⟩ false).1 rfl).1,
   ((c8_not_found_responder NewReply ⟨none⟩ false).1 rfl).2.1⟩

/-- C9: for every reply whose render step succeeds or is absent, the written
status is the explicitly assigned one when set and 200 otherwise. -/
theorem c9_default_status (r : Reply) (h : renderFails r = false) :
    (r.Code = none → (writeResponse r Wire.empty).status = some 200) ∧
    (∀ s : Nat, r.Code = some s → (writeResponse r Wire.empty).status = some s) := by
  constructor
  · intro hc
    rw [writeResponse_renderOk_status r h, hc]
    rfl
  · intro s hc
    rw [writeResponse_renderOk_status r h, hc]
    rfl

/-- C9, witness: the untouched fresh reply is written with status 200. -/
theorem c9_witness : (writeResponse NewReply Wire.empty).status = some 200 :=
  (c9_default_status NewReply rfl).1 rfl

/-- C10: when the domain declares a custom not-found route whose target fails
to resolve (setTarget returns errTargetNotFound), handleNotFound returns with
the reply untouched and no action invoked: no 404 status, no body. -/
theorem c10_unresolved_target_noop (c : Reply) (d : Domain) (isStatic : Bool)
    (route : Route) (h1 : d.NotFoundRoute = some route)
    (h2 : route.targetResolves = false) :
    handleNotFound c d isStatic = (c, NotFoundOutcome.noAction) := by
  simp [handleNotFound, h1, h2]

/-- C10, witness: a declared but unresolvable not-found route leaves the fresh
reply exactly as it was. -/
theorem c10_witness :
    handleNotFound NewReply ⟨some ⟨false, true⟩⟩ true = (NewReply, NotFoundOutcome.noAction) :=
  c10_unresolved_target_noop NewReply ⟨some ⟨false, true⟩⟩ true ⟨false, true⟩ rfl rfl

end Aah
